import Mathlib

/- Verification of the moltbot-railway wrapper server.

The embedded program is src/unnamed/part_001 (the gateway lifecycle
supervisor, configuration probe, token resolver, auth gate and request
router) together with the createAuthMiddleware variant from
src/src/server.js.  JavaScript strings are modelled as Lean String,
machine integers as Nat or Int, the single-threaded event loop as a
step function over an explicit supervisor state, and the file system
as explicit record fields threaded through the functions. -/

/- ===== Configuration probe (part_001 lines 64-70) ===== -/

/-- Result of the fs.existsSync call on the configuration file path:
the file is present, absent, or the file-system call raised. -/
inductive FsProbe
  | found
  | missing
  | ioError
deriving DecidableEq

/-- Outcome of fs.existsSync(configPath()) including a thrown error. -/
def existsSyncResult : FsProbe → Except String Bool
  | .found => .ok true
  | .missing => .ok false
  | .ioError => .error "EACCES"

/-- isConfigured from part_001: try returning existsSync, catching any
file-system error as false.  It is a pure function of the instantaneous
file-system state: the embedding gives it no mutable state to touch. -/
def isConfigured (p : FsProbe) : Bool :=
  match existsSyncResult p with
  | .ok b => b
  | .error _ => false

/-- Sequence of isConfigured calls against a sequence of instantaneous
file-system states, one call per state, in order. -/
def isConfiguredCalls (states : List FsProbe) : List Bool :=
  states.map isConfigured

/- ===== JavaScript string helpers used by the embedded code ===== -/

/-- ASCII whitespace recognised by the String.prototype.trim calls in the
source (the JavaScript set also has exotic Unicode spaces; the values the
program trims are ASCII). -/
def isJsSpace (c : Char) : Bool :=
  c = ' ' || c = '\t' || c = '\n' || c = '\r'

/-- String.prototype.trim: strip leading and trailing whitespace. -/
def jsTrim (s : String) : String :=
  String.mk (((s.toList.dropWhile isJsSpace).reverse.dropWhile isJsSpace).reverse)

/-- String.prototype.split(" ") over a character list: split at every
single space, keeping empty parts, exactly as JavaScript does. -/
def splitOnSpaceAux (cur : List Char) : List Char → List (List Char)
  | [] => [cur.reverse]
  | c :: cs => if c = ' ' then cur.reverse :: splitOnSpaceAux [] cs
               else splitOnSpaceAux (c :: cur) cs

/-- Destructuring `const [scheme, encoded] = header.split(" ")`: the first
part, and the second part when present. -/
def splitSchemeEncoded (header : String) : String × Option String :=
  match splitOnSpaceAux [] header.toList with
  | [] => ("", none)
  | [a] => (String.mk a, none)
  | a :: b :: _ => (String.mk a, some (String.mk b))

/-- Value of one base64 alphabet character; none for characters outside
the alphabet, which Buffer.from(..., "base64") skips. -/
def b64val (c : Char) : Option Nat :=
  if 'A' ≤ c ∧ c ≤ 'Z' then some (c.toNat - 65)
  else if 'a' ≤ c ∧ c ≤ 'z' then some ((c.toNat - 97) + 26)
  else if '0' ≤ c ∧ c ≤ '9' then some ((c.toNat - 48) + 52)
  else if c = '+' then some 62
  else if c = '/' then some 63
  else none

/-- Reassemble 6-bit base64 values into 8-bit bytes. -/
def sextetsToBytes : List Nat → List Nat
  | a :: b :: c :: d :: rest =>
      (a * 4 + b / 16) :: ((b % 16) * 16 + c / 4) :: ((c % 4) * 64 + d)
        :: sextetsToBytes rest
  | [a, b] => [a * 4 + b / 16]
  | [a, b, c] => [a * 4 + b / 16, (b % 16) * 16 + c / 4]
  | _ => []

/-- Buffer.from(encoded, "base64").toString("utf8") for the ASCII inputs
the auth gate compares: alphabet characters are decoded six bits at a
time and reassembled into bytes. -/
def base64DecodeString (s : String) : String :=
  String.mk ((sextetsToBytes (s.toList.filterMap b64val)).map Char.ofNat)

/- ===== Token resolver (part_001 lines 21-44) ===== -/

/-- Persistent state touched by resolveGatewayToken: the token file under
the state directory (none when missing or unreadable), its mode when the
resolver wrote it, and whether the state directory exists. -/
structure TokenFS where
  tokenFile : Option String
  tokenFileMode : Option Nat
  stateDirExists : Bool
deriving DecidableEq

/-- resolveGatewayToken from part_001.  envTok is the raw
CLAWDBOT_GATEWAY_TOKEN environment variable ("" when unset), randomHex
stands for crypto.randomBytes(32).toString("hex"), and writeOk says
whether the best-effort mkdir plus write of the token file succeeds.
Priority: trimmed environment override, then the trimmed persisted token
file when non-empty, then the fresh random token, persisted with mode
0o600 (= 384) when the write succeeds. -/
def resolveGatewayToken (envTok randomHex : String) (writeOk : Bool)
    (fs : TokenFS) : String × TokenFS :=
  if jsTrim envTok ≠ "" then (jsTrim envTok, fs)
  else if jsTrim (fs.tokenFile.getD "") ≠ "" then (jsTrim (fs.tokenFile.getD ""), fs)
  else
    (randomHex,
      if writeOk then
        { tokenFile := some randomHex, tokenFileMode := some 384, stateDirExists := true }
      else fs)

/- ===== Gateway process supervisor (part_001 lines 72-165) ===== -/

/-- Value returned by ensureGatewayRunning when it returns without
awaiting an in-flight attempt: the object literals of lines 137, 138
and 151. -/
structure EnsureReturn where
  ok : Bool
  reason : Option String
deriving DecidableEq

/-- Supervisor mutable module state: whether gatewayProc is non-null and
whether gatewayStarting is non-null. -/
structure SupState where
  gatewayProc : Bool
  gatewayStarting : Bool
deriving DecidableEq

/-- What one ensureGatewayRunning call does in its synchronous prefix:
either it returns a value immediately, or it suspends awaiting the
in-flight gatewayStarting attempt (creator = it created that attempt,
spawning the child inside startGateway). -/
inductive CallOutcome
  | immediate (r : EnsureReturn)
  | awaits (creator : Bool)
deriving DecidableEq

/-- Synchronous prefix of one ensureGatewayRunning call.  In the Node
event loop everything up to the first await runs atomically; the body of
startGateway contains no await, so the spawn and both guard updates
happen inside this atomic prefix.  Returns the new supervisor state, the
call outcome, and whether a child process was spawned. -/
def callStep (configured : Bool) (s : SupState) :
    SupState × CallOutcome × Bool :=
  if configured = false then (s, .immediate ⟨false, some "not configured"⟩, false)
  else if s.gatewayProc = true then (s, .immediate ⟨true, none⟩, false)
  else if s.gatewayStarting = false then
    ({ gatewayProc := true, gatewayStarting := true }, .awaits true, true)
  else (s, .awaits false, false)

/-- Asynchronous events interleaved by the event loop: a new
ensureGatewayRunning call, the in-flight attempt resolving (readiness
observed) or rejecting (readiness timeout), and the child process exit
or spawn-error callback clearing gatewayProc. -/
inductive SupEvent
  | call
  | resolveReady
  | resolveTimeout
  | procExit
deriving DecidableEq

/-- Observable history of a run: final supervisor state, per-call
outcomes, per-attempt resolutions (none = resolved, some msg = rejected
with msg, which every awaiting caller receives), and how many child
processes were spawned. -/
structure SupTrace where
  state : SupState
  outcomes : List CallOutcome
  resolutions : List (Option String)
  spawns : Nat
deriving DecidableEq

/-- One event-loop step.  Attempt resolution clears gatewayStarting via
the finally handler of lines 146-148; timeout rejects with the line 144
error and leaves gatewayProc untouched; the exit and error handlers of
lines 125-133 clear gatewayProc. -/
def stepEv (configured : Bool) (t : SupTrace) (e : SupEvent) : SupTrace :=
  match e with
  | .call =>
    let r := callStep configured t.state
    { state := r.1, outcomes := t.outcomes ++ [r.2.1],
      resolutions := t.resolutions,
      spawns := t.spawns + (if r.2.2 = true then 1 else 0) }
  | .resolveReady =>
    if t.state.gatewayStarting = true then
      { t with state := { t.state with gatewayStarting := false },
               resolutions := t.resolutions ++ [none] }
    else t
  | .resolveTimeout =>
    if t.state.gatewayStarting = true then
      { t with state := { t.state with gatewayStarting := false },
               resolutions := t.resolutions ++ [some "Gateway did not become ready in time"] }
    else t
  | .procExit => { t with state := { t.state with gatewayProc := false } }

/-- Run a sequence of event-loop steps from a supervisor state. -/
def runEvents (configured : Bool) (s : SupState) (evs : List SupEvent) : SupTrace :=
  evs.foldl (stepEv configured) ⟨s, [], [], 0⟩

/-- Polling loop of waitForGatewayReady: probe i is whether the i-th
readiness probe gets any response (a thrown fetch counts as false).
Each iteration costs the 250 ms sleep of line 89; the fuel is the number
of sleeps that fit in the timeout window. -/
def waitLoop (probe : Nat → Bool) : Nat → Nat → Bool
  | 0, _ => false
  | fuel + 1, i => if probe i then true else waitLoop probe fuel (i + 1)

/-- waitForGatewayReady with the 20 000 ms timeout of lines 80 and 142:
at most 20000 / 250 = 80 probes before giving up. -/
def waitForGatewayReady (probe : Nat → Bool) : Bool :=
  waitLoop probe 80 0

/-- How the in-flight attempt of lines 140-148 resolves, as an event:
readiness observed inside the window resolves it, otherwise it rejects
at the timeout. -/
def attemptOutcome (probe : Nat → Bool) : SupEvent :=
  if waitForGatewayReady probe then .resolveReady else .resolveTimeout

/- ===== Auth gate (part_001 lines 167-189, server.js lines 253-283) ===== -/

/-- Decision of an auth middleware: pass the request on, or end it with
a status, an optional WWW-Authenticate challenge header, and a body. -/
inductive AuthDecision
  | allow
  | reject (status : Nat) (challenge : Bool) (body : String)
deriving DecidableEq

/-- Text after the first colon of the decoded credentials, or "" when
there is no colon: `idx >= 0 ? decoded.slice(idx + 1) : ""`. -/
def passwordPart (decoded : String) : String :=
  match decoded.toList.dropWhile (fun c => c != ':') with
  | [] => ""
  | _ :: rest => String.mk rest

/-- Credential check of requireSetupAuth after base64 decoding: only the
password (the part after the first colon) is compared; the identity part
is never examined. -/
def requireSetupAuthDecoded (pw decoded : String) : AuthDecision :=
  if passwordPart decoded ≠ pw then .reject 401 true "Invalid password"
  else .allow

/-- requireSetupAuth from part_001.  pw is the trimmed SETUP_PASSWORD
("" when unset, which yields the 500 diagnostic), header the
authorization header ("" when absent). -/
def requireSetupAuth (pw header : String) : AuthDecision :=
  if pw = "" then
    .reject 500 false "SETUP_PASSWORD is not set. Set it in Railway Variables before using /setup."
  else
    match (splitSchemeEncoded header).2 with
    | none => .reject 401 true "Auth required"
    | some encoded =>
      if (splitSchemeEncoded header).1 ≠ "Basic" ∨ encoded = "" then
        .reject 401 true "Auth required"
      else requireSetupAuthDecoded pw (base64DecodeString encoded)

/-- User and password extraction of createAuthMiddleware:
`user = decoded.slice(0, colonIdx)` and `pass = decoded.slice(colonIdx + 1)`,
with the JavaScript quirk that colonIdx = -1 gives slice(0, -1) (all but
the last character) and slice(0) (the whole string). -/
def jsUserPass (decoded : String) : String × String :=
  match decoded.toList.dropWhile (fun c => c != ':') with
  | [] => (String.mk decoded.toList.dropLast, decoded)
  | _ :: rest => (String.mk (decoded.toList.takeWhile (fun c => c != ':')), String.mk rest)

/-- Credential check of createAuthMiddleware after base64 decoding: the
identity must equal the fixed "admin" and the password must equal the
configured secret; the length guard plus crypto.timingSafeEqual on the
UTF-8 buffers holds exactly when the strings are equal. -/
def createAuthDecoded (pw decoded : String) : AuthDecision :=
  if (jsUserPass decoded).1 = "admin" ∧ (jsUserPass decoded).2 = pw then .allow
  else .reject 401 true "Invalid credentials."

/-- createAuthMiddleware from src/src/server.js lines 253-283.  With no
password configured every request passes. -/
def createAuthMiddleware (pw header : String) : AuthDecision :=
  if pw = "" then .allow
  else
    match (splitSchemeEncoded header).2 with
    | none => .reject 401 true "Authentication required."
    | some encoded =>
      if (splitSchemeEncoded header).1 ≠ "Basic" ∨ encoded = "" then
        .reject 401 true "Authentication required."
      else createAuthDecoded pw (base64DecodeString encoded)

/- ===== Request router (part_001 lines 191-468) ===== -/

/-- Internal gateway address with the default host and port of lines
47-49. -/
def GATEWAY_TARGET : String := "http://127.0.0.1:18789"

/-- JSON scalar values appearing in the health response. -/
inductive JVal
  | jb (b : Bool)
  | js (s : String)
deriving DecidableEq

/-- Body of the /health response (lines 196-200): ok is constantly true,
configured reflects the instantaneous probe, gateway reflects whether
gatewayProc is non-null. -/
def healthBody (cfg : FsProbe) (proc : Bool) : List (String × JVal) :=
  [("ok", JVal.jb true),
   ("configured", JVal.jb (isConfigured cfg)),
   ("gateway", JVal.js (if proc = true then "running" else "stopped"))]

/-- HTTP responses the router can produce.  setupSurface stands for the
password-protected setup sub-application reached after the auth gate. -/
inductive Response
  | json (status : Nat) (body : List (String × JVal))
  | redirect (loc : String)
  | text (status : Nat) (challenge : Bool) (body : String)
  | proxiedWeb (target : String)
  | setupSurface
deriving DecidableEq

/-- Outcome of an awaited ensureGatewayRunning call as its caller sees
it: a returned value, or a thrown error (readiness timeout or a
propagated startGateway failure). -/
inductive EnsureOutcome
  | value (r : EnsureReturn)
  | thrown (msg : String)
deriving DecidableEq

/-- Result of the catch-all handler plus whether it invoked
ensureGatewayRunning. -/
structure CatchAllStep where
  result : Response
  ensureCalled : Bool
deriving DecidableEq

/-- Catch-all router of lines 428-443: unconfigured non-setup paths are
redirected to /setup; configured requests first await
ensureGatewayRunning, answering 503 with a diagnostic when it throws;
everything else is proxied to the internal gateway target. -/
def catchAllHandler (configured startsSetup : Bool) (ensure : EnsureOutcome) :
    CatchAllStep :=
  if configured = false ∧ startsSetup = false then ⟨.redirect "/setup", false⟩
  else if configured = true then
    match ensure with
    | .thrown msg => ⟨.text 503 false ("Gateway not ready: " ++ msg), true⟩
    | .value _ => ⟨.proxiedWeb GATEWAY_TARGET, true⟩
  else ⟨.proxiedWeb GATEWAY_TARGET, false⟩

/-- Express mount check for the /setup surface: the mount path itself or
a path continuing at a segment boundary. -/
def pathMountedAtSetup (path : String) : Bool :=
  path == "/setup" || path.toList.take 7 == "/setup/".toList

/-- req.path.startsWith("/setup") as used inside the catch-all. -/
def pathStartsSetup (path : String) : Bool :=
  path.toList.take 6 == "/setup".toList

/-- Result of dispatching one request through the express app. -/
structure DispatchResult where
  response : Response
  ensureCalled : Bool
  authChecked : Bool
deriving DecidableEq

/-- Route dispatch of the part_001 express app in registration order:
GET /health first and with no auth gate, then the /setup surface behind
requireSetupAuth, then the catch-all.  The setup sub-application is
abstracted to Response.setupSurface once the auth gate allows. -/
def appDispatch (pw authHeader : String) (cfg : FsProbe) (proc : Bool)
    (ensure : EnsureOutcome) (method path : String) : DispatchResult :=
  if method == "GET" && path == "/health" then
    ⟨.json 200 (healthBody cfg proc), false, false⟩
  else if pathMountedAtSetup path then
    match requireSetupAuth pw authHeader with
    | .allow => ⟨.setupSurface, false, true⟩
    | .reject s c b => ⟨.text s c b, false, true⟩
  else
    let st := catchAllHandler (isConfigured cfg) (pathStartsSetup path) ensure
    ⟨st.result, st.ensureCalled, false⟩

/-- WebSocket upgrade result: the raw socket is destroyed (no HTTP
response, no redirect), or the handshake is handed to proxy.ws. -/
inductive UpgradeOutcome
  | destroyed
  | proxiedWs (target : String)
deriving DecidableEq

/-- Upgrade handler of lines 456-468: destroy when unconfigured, destroy
when ensureGatewayRunning throws, otherwise hand to the proxy.  The
second component records whether ensureGatewayRunning was invoked. -/
def upgradeHandler (configured : Bool) (ensure : EnsureOutcome) :
    UpgradeOutcome × Bool :=
  if configured = false then (.destroyed, false)
  else
    match ensure with
    | .thrown _ => (.destroyed, true)
    | .value _ => (.proxiedWs GATEWAY_TARGET, true)

/- ===== Onboarding runner (part_001 lines 235-373) ===== -/

/-- Captured result of one runCmd invocation: exit code and combined
stdout plus stderr output. -/
structure CmdResult where
  code : Int
  output : String
deriving DecidableEq

/-- Observable effects of one POST /setup/api/run request. -/
structure RunEffects where
  status : Nat
  ok : Bool
  output : String
  ensureCalled : Bool
  restartCalled : Bool
  configSets : List String
  configuredFinal : Bool
deriving DecidableEq

/-- `set.output || "(no output)"` of lines 342 and 358. -/
def outputOrNone (s : String) : String :=
  if s = "" then "(no output)" else s

/-- POST /setup/api/run handler of lines 302-373.  configuredAtEntry is
the isConfigured probe at entry, onboard the captured onboarding command
result, configuredAfterOnboard the isConfigured probe after the command
(the command itself may or may not have created the configuration file),
telegramToken and discordToken the payload fields, telegramSet and
discordSet the results of the channel config-set commands when run.
configSets lists the keys passed to `config set`; configuredFinal is the
configuration state when the response is sent (the handler itself never
writes or deletes the configuration file). -/
def setupRunHandler (configuredAtEntry : Bool) (onboard : CmdResult)
    (configuredAfterOnboard : Bool) (telegramToken discordToken : String)
    (telegramSet discordSet : CmdResult) : RunEffects :=
  if configuredAtEntry = true then
    { status := 200, ok := true,
      output := "Already configured.\nUse Reset if you want to rerun onboarding.\n",
      ensureCalled := true, restartCalled := false, configSets := [],
      configuredFinal := true }
  else if onboard.code = 0 ∧ configuredAfterOnboard = true then
    { status := 200, ok := true,
      output := onboard.output
        ++ (if jsTrim telegramToken ≠ "" then
              "\n[telegram config] exit=" ++ toString telegramSet.code ++ "\n"
                ++ outputOrNone telegramSet.output
            else "")
        ++ (if jsTrim discordToken ≠ "" then
              "\n[discord config] exit=" ++ toString discordSet.code ++ "\n"
                ++ outputOrNone discordSet.output
            else ""),
      ensureCalled := false, restartCalled := true,
      configSets := ["gateway.auth.mode", "gateway.auth.token", "gateway.bind", "gateway.port"]
        ++ (if jsTrim telegramToken ≠ "" then ["channels.telegram"] else [])
        ++ (if jsTrim discordToken ≠ "" then ["channels.discord"] else []),
      configuredFinal := configuredAfterOnboard }
  else
    { status := 500, ok := false, output := onboard.output,
      ensureCalled := false, restartCalled := false, configSets := [],
      configuredFinal := configuredAfterOnboard }

/- ===== Helper lemmas: supervisor event loop ===== -/

/-- While an attempt is in flight, a new ensureGatewayRunning call leaves
the supervisor state untouched, spawns nothing, and either returns ok
immediately (live process handle) or awaits the existing attempt. -/
theorem callStep_inflight (s : SupState) (h : s.gatewayStarting = true) :
    (callStep true s).1 = s ∧ (callStep true s).2.2 = false ∧
    ((callStep true s).2.1 = CallOutcome.immediate ⟨true, none⟩ ∨
     (callStep true s).2.1 = CallOutcome.awaits false) := by
  unfold callStep
  by_cases hp : s.gatewayProc = true
  · simp [hp, h]
  · simp [hp, h]

/-- While an attempt is in flight and no resolution event occurs, any mix
of further calls and process-exit callbacks spawns nothing, keeps the
attempt in flight, and produces only immediate-ok or awaiting callers. -/
theorem foldlInflight (evs : List SupEvent) :
    ∀ t : SupTrace, (∀ e ∈ evs, e = SupEvent.call ∨ e = SupEvent.procExit) →
    t.state.gatewayStarting = true →
    (evs.foldl (stepEv true) t).spawns = t.spawns ∧
    (evs.foldl (stepEv true) t).state.gatewayStarting = true ∧
    (∀ o ∈ (evs.foldl (stepEv true) t).outcomes,
      o ∈ t.outcomes ∨ o = CallOutcome.immediate ⟨true, none⟩ ∨
      o = CallOutcome.awaits false) := by
  induction evs with
  | nil => exact fun t _ h => ⟨rfl, h, fun o ho => Or.inl ho⟩
  | cons e rest ih =>
    intro t hall hst
    simp only [List.foldl_cons]
    have hrest : ∀ x ∈ rest, x = SupEvent.call ∨ x = SupEvent.procExit :=
      fun x hx => hall x (List.mem_cons_of_mem e hx)
    rcases hall e (List.mem_cons_self e rest) with he | he <;> subst he
    · obtain ⟨h1, h2, h3⟩ := callStep_inflight t.state hst
      have hspawn : (stepEv true t SupEvent.call).spawns = t.spawns := by
        simp [stepEv, h2]
      have hstate : (stepEv true t SupEvent.call).state = t.state := by
        simp [stepEv, h1]
      have hout : (stepEv true t SupEvent.call).outcomes
          = t.outcomes ++ [(callStep true t.state).2.1] := by
        simp [stepEv]
      have hst' : (stepEv true t SupEvent.call).state.gatewayStarting = true := by
        rw [hstate]; exact hst
      obtain ⟨i1, i2, i3⟩ := ih (stepEv true t SupEvent.call) hrest hst'
      refine ⟨by rw [i1, hspawn], i2, fun o ho => ?_⟩
      rcases i3 o ho with hmem | hrest' | hrest'
      · rw [hout] at hmem
        rcases List.mem_append.mp hmem with hmem | hmem
        · exact Or.inl hmem
        · have : o = (callStep true t.state).2.1 := by simpa using hmem
          subst this
          rcases h3 with h3 | h3
          · exact Or.inr (Or.inl h3)
          · exact Or.inr (Or.inr h3)
      · exact Or.inr (Or.inl hrest')
      · exact Or.inr (Or.inr hrest')
    · have hst' : (stepEv true t SupEvent.procExit).state.gatewayStarting = true := hst
      obtain ⟨i1, i2, i3⟩ := ih (stepEv true t SupEvent.procExit) hrest hst'
      exact ⟨i1, i2, fun o ho => i3 o ho⟩

/-- From the Stopped state, a nonempty mix of calls and process-exit
callbacks with no resolution event spawns exactly one child process. -/
theorem foldlFromStopped (evs : List SupEvent) :
    ∀ t : SupTrace, (∀ e ∈ evs, e = SupEvent.call ∨ e = SupEvent.procExit) →
    t.state = ⟨false, false⟩ → SupEvent.call ∈ evs →
    (evs.foldl (stepEv true) t).spawns = t.spawns + 1 ∧
    (evs.foldl (stepEv true) t).state.gatewayStarting = true ∧
    (∀ o ∈ (evs.foldl (stepEv true) t).outcomes,
      o ∈ t.outcomes ∨ o = CallOutcome.awaits true ∨
      o = CallOutcome.immediate ⟨true, none⟩ ∨ o = CallOutcome.awaits false) := by
  induction evs with
  | nil => exact fun t _ _ hc => absurd hc (List.not_mem_nil _)
  | cons e rest ih =>
    intro t hall hstate hc
    simp only [List.foldl_cons]
    have hrest : ∀ x ∈ rest, x = SupEvent.call ∨ x = SupEvent.procExit :=
      fun x hx => hall x (List.mem_cons_of_mem e hx)
    rcases hall e (List.mem_cons_self e rest) with he | he <;> subst he
    · have hcs : callStep true t.state = (⟨true, true⟩, CallOutcome.awaits true, true) := by
        rw [hstate]; rfl
      have hstate' : (stepEv true t SupEvent.call).state = ⟨true, true⟩ := by
        simp [stepEv, hcs]
      have hspawn : (stepEv true t SupEvent.call).spawns = t.spawns + 1 := by
        simp [stepEv, hcs]
      have hout : (stepEv true t SupEvent.call).outcomes
          = t.outcomes ++ [CallOutcome.awaits true] := by
        simp [stepEv, hcs]
      have hst' : (stepEv true t SupEvent.call).state.gatewayStarting = true := by
        rw [hstate']
      obtain ⟨i1, i2, i3⟩ := foldlInflight rest (stepEv true t SupEvent.call) hrest hst'
      refine ⟨by rw [i1, hspawn], i2, fun o ho => ?_⟩
      rcases i3 o ho with hmem | hrest' | hrest'
      · rw [hout] at hmem
        rcases List.mem_append.mp hmem with hmem | hmem
        · exact Or.inl hmem
        · have : o = CallOutcome.awaits true := by simpa using hmem
          exact Or.inr (Or.inl this)
      · exact Or.inr (Or.inr (Or.inl hrest'))
      · exact Or.inr (Or.inr (Or.inr hrest'))
    · have hstate' : (stepEv true t SupEvent.procExit).state = ⟨false, false⟩ := by
        simp [stepEv, hstate]
      have hc' : SupEvent.call ∈ rest := by
        rcases List.mem_cons.mp hc with h | h
        · exact absurd h (by decide)
        · exact h
      obtain ⟨i1, i2, i3⟩ := ih (stepEv true t SupEvent.procExit) hrest hstate' hc'
      exact ⟨i1, i2, fun o ho => i3 o ho⟩

/-- If no readiness probe ever succeeds, the polling loop gives up. -/
theorem waitLoop_never (probe : Nat → Bool) (h : ∀ n, probe n = false) :
    ∀ fuel i, waitLoop probe fuel i = false := by
  intro fuel
  induction fuel with
  | zero => exact fun _ => rfl
  | succ n ih => intro i; simp [waitLoop, h i, ih]

/- ===== Claims about the supervisor ===== -/

/-- C1 (amended): for every sequence of ensureGatewayRunning calls
starting while the supervisor is Stopped and configured, interleaved
arbitrarily with child exit or spawn-error callbacks but with the
in-flight attempt not yet resolved, exactly one child gateway process is
spawned and the single attempt is still in flight at the end; a caller
arriving while the attempt is in flight awaits that same attempt when
the process handle is clear, and otherwise returns ok immediately
without awaiting it (the part the original claim overstates). -/
theorem c1_single_flight (evs : List SupEvent)
    (hall : ∀ e ∈ evs, e = SupEvent.call ∨ e = SupEvent.procExit)
    (hcall : SupEvent.call ∈ evs) :
    (runEvents true ⟨false, false⟩ evs).spawns = 1 ∧
    (runEvents true ⟨false, false⟩ evs).state.gatewayStarting = true ∧
    (∀ o ∈ (runEvents true ⟨false, false⟩ evs).outcomes,
      o = CallOutcome.awaits true ∨ o = CallOutcome.immediate ⟨true, none⟩ ∨
      o = CallOutcome.awaits false) := by
  obtain ⟨h1, h2, h3⟩ := foldlFromStopped evs ⟨⟨false, false⟩, [], [], 0⟩ hall rfl hcall
  refine ⟨h1, h2, fun o ho => ?_⟩
  rcases h3 o ho with h | h | h | h
  · exact absurd h (List.not_mem_nil o)
  · exact Or.inl h
  · exact Or.inr (Or.inl h)
  · exact Or.inr (Or.inr h)

/-- Witness for C1 at the concrete event sequence
[call, procExit, call]: exactly one spawn. -/
theorem c1_single_flight_witness :
    (runEvents true ⟨false, false⟩
      [SupEvent.call, SupEvent.procExit, SupEvent.call]).spawns = 1 :=
  (c1_single_flight [SupEvent.call, SupEvent.procExit, SupEvent.call]
    (by decide) (by decide)).1

/-- C1 counterexample: two concurrent calls from Stopped.  The second
call arrives while the first attempt is still in flight
(gatewayStarting is set), yet it returns ok immediately because the
spawn of the first call already set gatewayProc; it does not await the
pending attempt, contradicting the claim that every such caller awaits
it. -/
theorem c1_counterexample :
    (runEvents true ⟨false, false⟩ [SupEvent.call, SupEvent.call]).outcomes
      = [CallOutcome.awaits true, CallOutcome.immediate ⟨true, none⟩] ∧
    (runEvents true ⟨false, false⟩ [SupEvent.call, SupEvent.call]).state.gatewayStarting
      = true ∧
    CallOutcome.immediate ⟨true, none⟩ ≠ CallOutcome.awaits false :=
  ⟨by decide, by decide, by decide⟩

/-- C2 (amended): when the readiness probe never succeeds, the attempt
rejects at the 20 second timeout with the gateway-not-ready error (which
all awaiting callers receive), and the in-flight marker is cleared; but
the process handle is NOT discarded, so a subsequent ensureGatewayRunning
call returns ok immediately against the still-running, never-ready
process, and a fresh spawn happens only after the child itself exits or
errors. -/
theorem c2_timeout_keeps_handle (probe : Nat → Bool) (h : ∀ n, probe n = false) :
    attemptOutcome probe = SupEvent.resolveTimeout ∧
    (runEvents true ⟨false, false⟩
        [SupEvent.call, attemptOutcome probe, SupEvent.call]).resolutions
      = [some "Gateway did not become ready in time"] ∧
    (runEvents true ⟨false, false⟩
        [SupEvent.call, attemptOutcome probe, SupEvent.call]).state = ⟨true, false⟩ ∧
    (runEvents true ⟨false, false⟩
        [SupEvent.call, attemptOutcome probe, SupEvent.call]).outcomes
      = [CallOutcome.awaits true, CallOutcome.immediate ⟨true, none⟩] ∧
    (runEvents true ⟨false, false⟩
        [SupEvent.call, attemptOutcome probe, SupEvent.call]).spawns = 1 ∧
    (runEvents true ⟨false, false⟩
        [SupEvent.call, attemptOutcome probe, SupEvent.procExit, SupEvent.call]).spawns = 2 ∧
    (runEvents true ⟨false, false⟩
        [SupEvent.call, attemptOutcome probe, SupEvent.procExit, SupEvent.call]).outcomes
      = [CallOutcome.awaits true, CallOutcome.awaits true] := by
  have ha : attemptOutcome probe = SupEvent.resolveTimeout := by
    unfold attemptOutcome waitForGatewayReady
    rw [waitLoop_never probe h 80 0]
    simp
  rw [ha]
  exact ⟨rfl, by decide, by decide, by decide, by decide, by decide, by decide⟩

/-- Witness for C2 at the concrete always-failing probe. -/
theorem c2_timeout_keeps_handle_witness :
    attemptOutcome (fun _ => false) = SupEvent.resolveTimeout ∧
    (runEvents true ⟨false, false⟩
        [SupEvent.call, attemptOutcome (fun _ => false), SupEvent.call]).resolutions
      = [some "Gateway did not become ready in time"] ∧
    (runEvents true ⟨false, false⟩
        [SupEvent.call, attemptOutcome (fun _ => false), SupEvent.call]).state
      = ⟨true, false⟩ ∧
    (runEvents true ⟨false, false⟩
        [SupEvent.call, attemptOutcome (fun _ => false), SupEvent.call]).outcomes
      = [CallOutcome.awaits true, CallOutcome.immediate ⟨true, none⟩] ∧
    (runEvents true ⟨false, false⟩
        [SupEvent.call, attemptOutcome (fun _ => false), SupEvent.call]).spawns = 1 ∧
    (runEvents true ⟨false, false⟩
        [SupEvent.call, attemptOutcome (fun _ => false), SupEvent.procExit,
         SupEvent.call]).spawns = 2 ∧
    (runEvents true ⟨false, false⟩
        [SupEvent.call, attemptOutcome (fun _ => false), SupEvent.procExit,
         SupEvent.call]).outcomes
      = [CallOutcome.awaits true, CallOutcome.awaits true] :=
  c2_timeout_keeps_handle (fun _ => false) (fun _ => rfl)

/-- C2 counterexample: after the attempt rejects at the timeout, the
process handle is still set (state is not Stopped), and the next
ensureGatewayRunning call returns ok immediately with no fresh spawn,
contradicting the claimed discard of the handle and fresh spawn. -/
theorem c2_counterexample :
    (runEvents true ⟨false, false⟩
        [SupEvent.call, SupEvent.resolveTimeout, SupEvent.call]).state.gatewayProc = true ∧
    (runEvents true ⟨false, false⟩
        [SupEvent.call, SupEvent.resolveTimeout, SupEvent.call]).spawns = 1 ∧
    (runEvents true ⟨false, false⟩
        [SupEvent.call, SupEvent.resolveTimeout, SupEvent.call]).outcomes
      = [CallOutcome.awaits true, CallOutcome.immediate ⟨true, none⟩] :=
  ⟨by decide, by decide, by decide⟩

/-- C9: an ensureGatewayRunning call while unconfigured returns the
object with ok false and reason "not configured" immediately, spawns no
child process, creates no attempt, and leaves the supervisor state
exactly as it was. -/
theorem c9_unconfigured_noop (s : SupState) :
    callStep false s = (s, CallOutcome.immediate ⟨false, some "not configured"⟩, false) ∧
    (runEvents false s [SupEvent.call]).state = s ∧
    (runEvents false s [SupEvent.call]).spawns = 0 ∧
    (runEvents false s [SupEvent.call]).outcomes
      = [CallOutcome.immediate ⟨false, some "not configured"⟩] := by
  refine ⟨?_, ?_, ?_, ?_⟩ <;> simp [callStep, runEvents, stepEv]

/- ===== Helper lemmas: credential strings ===== -/

/-- Character list of an identity-colon-secret credential. -/
theorem toList_colon_append (u s : String) :
    (u ++ ":" ++ s).toList = u.toList ++ ':' :: s.toList := by
  simp [String.toList, String.data_append]

/-- Dropping up to the first colon lands exactly on the colon when the
part before it is colon-free. -/
theorem dropWhile_ne_colon (l r : List Char) (h : ∀ c ∈ l, c ≠ ':') :
    List.dropWhile (fun c => c != ':') (l ++ ':' :: r) = ':' :: r := by
  induction l with
  | nil => simp
  | cons a t ih =>
    have ha : a ≠ ':' := h a (List.mem_cons_self a t)
    simp only [List.cons_append, List.dropWhile_cons, bne_iff_ne, ne_eq, ha,
      not_false_eq_true, if_true]
    exact ih (fun c hc => h c (List.mem_cons_of_mem a hc))

/-- Taking up to the first colon returns exactly the part before it when
that part is colon-free. -/
theorem takeWhile_ne_colon (l r : List Char) (h : ∀ c ∈ l, c ≠ ':') :
    List.takeWhile (fun c => c != ':') (l ++ ':' :: r) = l := by
  induction l with
  | nil => simp
  | cons a t ih =>
    have ha : a ≠ ':' := h a (List.mem_cons_self a t)
    simp only [List.cons_append, List.takeWhile_cons, bne_iff_ne, ne_eq, ha,
      not_false_eq_true, if_true, List.cons.injEq, true_and]
    exact ih (fun c hc => h c (List.mem_cons_of_mem a hc))

/-- passwordPart of an identity-colon-secret credential is the secret. -/
theorem passwordPart_append (u s : String) (hu : ∀ c ∈ u.toList, c ≠ ':') :
    passwordPart (u ++ ":" ++ s) = s := by
  unfold passwordPart
  rw [toList_colon_append, dropWhile_ne_colon u.toList s.toList hu]
  rfl

/-- jsUserPass of an identity-colon-secret credential splits it at the
first colon. -/
theorem jsUserPass_append (u s : String) (hu : ∀ c ∈ u.toList, c ≠ ':') :
    jsUserPass (u ++ ":" ++ s) = (u, s) := by
  unfold jsUserPass
  rw [toList_colon_append, dropWhile_ne_colon u.toList s.toList hu]
  show (String.mk (List.takeWhile (fun c => c != ':') (u.toList ++ ':' :: s.toList)),
        String.mk s.toList) = (u, s)
  rw [takeWhile_ne_colon u.toList s.toList hu]
  rfl

/- ===== Claims about the auth gate and router ===== -/

/-- Every outcome of requireSetupAuth with a configured password is
either allow or a 401 carrying the WWW-Authenticate challenge. -/
theorem requireSetupAuth_cases (pw header : String) (hpw : pw ≠ "") :
    requireSetupAuth pw header = AuthDecision.allow ∨
    requireSetupAuth pw header = AuthDecision.reject 401 true "Auth required" ∨
    requireSetupAuth pw header = AuthDecision.reject 401 true "Invalid password" := by
  unfold requireSetupAuth requireSetupAuthDecoded
  rw [if_neg hpw]
  split
  · right; left; rfl
  · split
    · right; left; rfl
    · split
      · right; right; rfl
      · left; rfl

/-- C4 (amended): with a setup password configured, requireSetupAuth
(part_001) rejects missing credentials, malformed headers, and a wrong
secret with 401 plus a WWW-Authenticate challenge, and every non-allowed
request gets such a 401; but it never examines the identity: any request
carrying the exact configured secret after the first colon is allowed
through, whatever the identity.  The createAuthMiddleware variant
(src/src/server.js) behaves as the original claim states: it also
requires the fixed identity "admin". -/
theorem c4_auth_gate (pw user s : String) (hpw : pw ≠ "")
    (hu : ∀ c ∈ user.toList, c ≠ ':') (hs : s ≠ pw) :
    requireSetupAuth pw "" = AuthDecision.reject 401 true "Auth required" ∧
    requireSetupAuth pw "Basic" = AuthDecision.reject 401 true "Auth required" ∧
    requireSetupAuth pw "Token abcd" = AuthDecision.reject 401 true "Auth required" ∧
    (∀ header, requireSetupAuth pw header = AuthDecision.allow ∨
      requireSetupAuth pw header = AuthDecision.reject 401 true "Auth required" ∨
      requireSetupAuth pw header = AuthDecision.reject 401 true "Invalid password") ∧
    requireSetupAuthDecoded pw (user ++ ":" ++ pw) = AuthDecision.allow ∧
    requireSetupAuthDecoded pw (user ++ ":" ++ s)
      = AuthDecision.reject 401 true "Invalid password" ∧
    createAuthDecoded pw ("admin" ++ ":" ++ pw) = AuthDecision.allow ∧
    (user ≠ "admin" → createAuthDecoded pw (user ++ ":" ++ pw)
      = AuthDecision.reject 401 true "Invalid credentials.") ∧
    createAuthDecoded pw ("admin" ++ ":" ++ s)
      = AuthDecision.reject 401 true "Invalid credentials." := by
  refine ⟨?_, ?_, ?_, ?_, ?_, ?_, ?_, ?_, ?_⟩
  · unfold requireSetupAuth
    rw [if_neg hpw]
    rfl
  · unfold requireSetupAuth
    rw [if_neg hpw]
    rfl
  · unfold requireSetupAuth
    rw [if_neg hpw]
    rfl
  · exact fun header => requireSetupAuth_cases pw header hpw
  · unfold requireSetupAuthDecoded
    rw [passwordPart_append user pw hu]
    simp
  · unfold requireSetupAuthDecoded
    rw [passwordPart_append user s hu, if_pos hs]
  · unfold createAuthDecoded
    rw [jsUserPass_append "admin" pw (by decide)]
    simp
  · intro hne
    unfold createAuthDecoded
    rw [jsUserPass_append user pw hu]
    simp [hne]
  · unfold createAuthDecoded
    rw [jsUserPass_append "admin" s (by decide)]
    simp [hs]

/-- Witness for C4: any identity with the exact secret passes
requireSetupAuth's decoded check. -/
theorem c4_auth_gate_witness :
    requireSetupAuthDecoded "pw" ("root" ++ ":" ++ "pw") = AuthDecision.allow :=
  (c4_auth_gate "pw" "root" "zz" (by decide) (by decide) (by decide)).2.2.2.2.1

/-- C4 counterexample: with password "pw" configured, a request with
identity "root" (not the fixed expected identity "admin") and the
correct secret is allowed through by requireSetupAuth rather than
rejected with 401. -/
theorem c4_counterexample :
    requireSetupAuth "pw" "Basic cm9vdDpwdw==" = AuthDecision.allow ∧
    base64DecodeString "cm9vdDpwdw==" = "root:pw" ∧
    jsUserPass "root:pw" = ("root", "pw") ∧
    "root" ≠ "admin" :=
  ⟨by decide, by decide, by decide, by decide⟩

/-- C3: for every request reaching the catch-all router on a non-setup
path: unconfigured requests are redirected to /setup without calling
ensureGatewayRunning; configured requests call ensureGatewayRunning
first, answer 503 with the gateway-not-ready diagnostic when it throws,
and are proxied to the internal gateway target when it succeeds. -/
theorem c3_catch_all_router (ensure : EnsureOutcome) (msg : String) (r : EnsureReturn) :
    catchAllHandler false false ensure = ⟨Response.redirect "/setup", false⟩ ∧
    catchAllHandler true false (EnsureOutcome.thrown msg)
      = ⟨Response.text 503 false ("Gateway not ready: " ++ msg), true⟩ ∧
    catchAllHandler true false (EnsureOutcome.value r)
      = ⟨Response.proxiedWeb GATEWAY_TARGET, true⟩ := by
  refine ⟨?_, rfl, rfl⟩
  unfold catchAllHandler
  simp

/-- C10: a WebSocket upgrade while unconfigured destroys the socket
without consulting the supervisor; an upgrade whose
ensureGatewayRunning throws also destroys the socket; the handshake is
handed to the proxy exactly when configuration holds and the start did
not throw, and then only toward the internal gateway target.  The
UpgradeOutcome type has no HTTP-response or redirect constructor: a
destroyed socket sends nothing. -/
theorem c10_upgrade_gate (ensure : EnsureOutcome) (msg : String) (r : EnsureReturn) :
    upgradeHandler false ensure = (UpgradeOutcome.destroyed, false) ∧
    upgradeHandler true (EnsureOutcome.thrown msg) = (UpgradeOutcome.destroyed, true) ∧
    upgradeHandler true (EnsureOutcome.value r)
      = (UpgradeOutcome.proxiedWs GATEWAY_TARGET, true) ∧
    (∀ (c : Bool) (e : EnsureOutcome) (t : String) (b : Bool),
      upgradeHandler c e = (UpgradeOutcome.proxiedWs t, b) →
      c = true ∧ (∃ rr, e = EnsureOutcome.value rr) ∧ t = GATEWAY_TARGET) := by
  refine ⟨rfl, rfl, rfl, ?_⟩
  intro c e t b h
  cases c
  · simp [upgradeHandler] at h
  · cases e with
    | thrown m => simp [upgradeHandler] at h
    | value rr =>
      refine ⟨rfl, ⟨rr, rfl⟩, ?_⟩
      have h2 : (UpgradeOutcome.proxiedWs GATEWAY_TARGET, true)
          = (UpgradeOutcome.proxiedWs t, b) := h
      cases h2
      rfl

/-- Witness for C10 at a concrete successful start. -/
theorem c10_upgrade_gate_witness :
    true = true ∧
    (∃ rr, EnsureOutcome.value (⟨true, none⟩ : EnsureReturn) = EnsureOutcome.value rr) ∧
    GATEWAY_TARGET = GATEWAY_TARGET :=
  (c10_upgrade_gate (EnsureOutcome.value ⟨true, none⟩) "" ⟨true, none⟩).2.2.2
    true (EnsureOutcome.value ⟨true, none⟩) GATEWAY_TARGET true rfl

/-- C7: isConfigured returns false whenever the file-system check
raises, returns the instantaneous existence bit otherwise, and a
sequence of calls returns exactly the per-call instantaneous results:
the call at any position depends only on the state at that position,
with no caching and no effect on neighbouring calls. -/
theorem c7_configuration_probe :
    isConfigured FsProbe.ioError = false ∧
    isConfigured FsProbe.found = true ∧
    isConfigured FsProbe.missing = false ∧
    (∀ (before after : List FsProbe) (p : FsProbe),
      isConfiguredCalls (before ++ p :: after)
        = isConfiguredCalls before ++ isConfigured p :: isConfiguredCalls after) := by
  refine ⟨rfl, rfl, rfl, ?_⟩
  intro before after p
  simp [isConfiguredCalls]

/-- C8 (amended): GET /health is dispatched before the auth gate and in
every state answers without checking credentials and without calling
ensureGatewayRunning; its body reports the instantaneous configured bit
and running/stopped gateway state, under the keys ok (constantly true),
configured and gateway - not under a status key as the claim words it. -/
theorem c8_health_endpoint (pw authHeader : String) (cfg : FsProbe) (proc : Bool)
    (ensure : EnsureOutcome) :
    appDispatch pw authHeader cfg proc ensure "GET" "/health"
      = ⟨Response.json 200 (healthBody cfg proc), false, false⟩ ∧
    (healthBody cfg proc).map Prod.fst = ["ok", "configured", "gateway"] ∧
    List.lookup "configured" (healthBody cfg proc) = some (JVal.jb (isConfigured cfg)) ∧
    List.lookup "gateway" (healthBody cfg proc)
      = some (JVal.js (if proc = true then "running" else "stopped")) := by
  exact ⟨rfl, rfl, rfl, rfl⟩

/-- C8 counterexample: the health body has keys ok, configured and
gateway; it has no status key, so the response shape in the claim is
wrong on the field name. -/
theorem c8_counterexample :
    (healthBody FsProbe.found true).map Prod.fst = ["ok", "configured", "gateway"] ∧
    List.lookup "status" (healthBody FsProbe.found true) = none ∧
    List.lookup "ok" (healthBody FsProbe.found true) = some (JVal.jb true) :=
  ⟨by decide, by decide, by decide⟩

/- ===== Claims about the token resolver and onboarding runner ===== -/

/-- C5: resolveGatewayToken prefers the trimmed environment override,
then the trimmed non-empty persisted token file, then a fresh random
token persisted with owner-only mode 0o600; a token persisted in the
file is returned unchanged by every later call that has no environment
override, the resolved token fed back through the environment (line 44
of part_001) is returned unchanged by every later call in the same run,
and a freshly generated and persisted token is returned unchanged by
every later call reading the same file. -/
theorem c5_token_resolution (envTok randomHex tok : String) (fs : TokenFS)
    (hr : jsTrim randomHex = randomHex) (hrne : randomHex ≠ "") :
    (jsTrim envTok ≠ "" →
      resolveGatewayToken envTok randomHex true fs = (jsTrim envTok, fs)) ∧
    (jsTrim envTok = "" → jsTrim (fs.tokenFile.getD "") ≠ "" →
      resolveGatewayToken envTok randomHex true fs
        = (jsTrim (fs.tokenFile.getD ""), fs)) ∧
    (jsTrim envTok = "" → jsTrim (fs.tokenFile.getD "") = "" →
      resolveGatewayToken envTok randomHex true fs
        = (randomHex, ⟨some randomHex, some 384, true⟩)) ∧
    (jsTrim tok = tok → tok ≠ "" → ∀ (envB rB : String) (wB : Bool),
      jsTrim envB = "" →
      resolveGatewayToken envB rB wB ⟨some tok, some 384, true⟩
        = (tok, ⟨some tok, some 384, true⟩)) ∧
    (jsTrim envTok = "" → jsTrim (fs.tokenFile.getD "") = "" →
      ∀ (envB rB : String) (wB : Bool), jsTrim envB = "" →
      resolveGatewayToken envB rB wB (resolveGatewayToken envTok randomHex true fs).2
        = (randomHex, (resolveGatewayToken envTok randomHex true fs).2)) ∧
    (∀ (rB : String) (wB : Bool) (fsB : TokenFS),
      resolveGatewayToken randomHex rB wB fsB = (randomHex, fsB)) := by
  refine ⟨?_, ?_, ?_, ?_, ?_, ?_⟩
  · intro h1
    simp [resolveGatewayToken, h1]
  · intro h1 h2
    simp [resolveGatewayToken, h1, h2]
  · intro h1 h2
    simp [resolveGatewayToken, h1, h2]
  · intro ht htne envB rB wB hB
    simp [resolveGatewayToken, hB, ht, htne]
  · intro h1 h2 envB rB wB hB
    have h3 : resolveGatewayToken envTok randomHex true fs
        = (randomHex, ⟨some randomHex, some 384, true⟩) := by
      simp [resolveGatewayToken, h1, h2]
    rw [h3]
    simp [resolveGatewayToken, hB, hr, hrne]
  · intro rB wB fsB
    simp [resolveGatewayToken, hr, hrne]

/-- Witness for C5: with no override and no token file, the fresh token
is returned and persisted with mode 0o600. -/
theorem c5_token_resolution_witness :
    resolveGatewayToken "" "a1b2" true ⟨none, none, false⟩
      = ("a1b2", ⟨some "a1b2", some 384, true⟩) :=
  (c5_token_resolution "" "a1b2" "a1b2" ⟨none, none, false⟩ (by decide)
    (by decide)).2.2.1 (by decide) (by decide)

/-- C6 (amended): when the onboarding command exits non-zero, or exits
zero without the configuration file existing afterwards, the setup run
responds 500 with ok false and the captured onboarding output verbatim,
runs no config-set command, does not restart or ensure the gateway, and
leaves the configuration state exactly as the command left it (no
rollback - so isConfigured stays false only when the command itself did
not create the file). -/
theorem c6_onboard_failure (onboard : CmdResult) (cfgAfter : Bool)
    (tg dc : String) (tgSet dcSet : CmdResult)
    (h : onboard.code ≠ 0 ∨ cfgAfter = false) :
    (setupRunHandler false onboard cfgAfter tg dc tgSet dcSet).ok = false ∧
    (setupRunHandler false onboard cfgAfter tg dc tgSet dcSet).status = 500 ∧
    (setupRunHandler false onboard cfgAfter tg dc tgSet dcSet).output = onboard.output ∧
    (setupRunHandler false onboard cfgAfter tg dc tgSet dcSet).ensureCalled = false ∧
    (setupRunHandler false onboard cfgAfter tg dc tgSet dcSet).restartCalled = false ∧
    (setupRunHandler false onboard cfgAfter tg dc tgSet dcSet).configSets = [] ∧
    (setupRunHandler false onboard cfgAfter tg dc tgSet dcSet).configuredFinal = cfgAfter := by
  have hcond : ¬(onboard.code = 0 ∧ cfgAfter = true) := by
    rcases h with h | h
    · exact fun hc => h hc.1
    · intro hc
      rw [h] at hc
      exact Bool.false_ne_true hc.2
  refine ⟨?_, ?_, ?_, ?_, ?_, ?_, ?_⟩ <;> simp [setupRunHandler, hcond]

/-- Witness for C6 at a concrete failing onboarding command. -/
theorem c6_onboard_failure_witness :
    (setupRunHandler false ⟨1, "boom"⟩ false "" "" ⟨0, ""⟩ ⟨0, ""⟩).ok = false ∧
    (setupRunHandler false ⟨1, "boom"⟩ false "" "" ⟨0, ""⟩ ⟨0, ""⟩).status = 500 ∧
    (setupRunHandler false ⟨1, "boom"⟩ false "" "" ⟨0, ""⟩ ⟨0, ""⟩).output = (⟨1, "boom"⟩ : CmdResult).output ∧
    (setupRunHandler false ⟨1, "boom"⟩ false "" "" ⟨0, ""⟩ ⟨0, ""⟩).ensureCalled = false ∧
    (setupRunHandler false ⟨1, "boom"⟩ false "" "" ⟨0, ""⟩ ⟨0, ""⟩).restartCalled = false ∧
    (setupRunHandler false ⟨1, "boom"⟩ false "" "" ⟨0, ""⟩ ⟨0, ""⟩).configSets = [] ∧
    (setupRunHandler false ⟨1, "boom"⟩ false "" "" ⟨0, ""⟩ ⟨0, ""⟩).configuredFinal = false :=
  c6_onboard_failure ⟨1, "boom"⟩ false "" "" ⟨0, ""⟩ ⟨0, ""⟩ (by decide)

/-- C6 counterexample: the onboarding command exits non-zero after
itself creating the configuration file; the run reports ok false with
the output verbatim and starts nothing, yet isConfigured is true
afterwards, contradicting the claim that it remains false. -/
theorem c6_counterexample :
    (setupRunHandler false ⟨1, "ERR"⟩ true "" "" ⟨0, ""⟩ ⟨0, ""⟩).ok = false ∧
    (setupRunHandler false ⟨1, "ERR"⟩ true "" "" ⟨0, ""⟩ ⟨0, ""⟩).output = "ERR" ∧
    (setupRunHandler false ⟨1, "ERR"⟩ true "" "" ⟨0, ""⟩ ⟨0, ""⟩).restartCalled = false ∧
    (setupRunHandler false ⟨1, "ERR"⟩ true "" "" ⟨0, ""⟩ ⟨0, ""⟩).configuredFinal = true :=
  ⟨by decide, by decide, by decide, by decide⟩
